import Mathlib

/-!
Verification of the MPESA LNMO payment gateway (`src/single.py`,
`src/repositories/lnmo_repository.py`) against its specification.

The repository persists payment attempts as rows of a `transactions` table
and exposes three operations: `transact` (initiate an STK push and persist
a PROCESSING row), `query` (read-through status query against the provider),
and `callback` (apply the provider's asynchronous result to the stored row).

Shallow embedding conventions:
* The transaction store is a `List Transaction`; SQLAlchemy's
  `select ... where transaction_id == cid` + `scalar_one_or_none` becomes
  `List.find?` (the column carries a unique constraint, so at most one row
  matches), and the in-place ORM mutation + commit becomes `updateFirst`.
* JSON payloads become structures with `Option` fields: a `none` field is
  an absent key, so Python's `d["k"]` becomes a `getKey` call in the
  `Except PyErr` monad (raising `KeyError`) and `d.get("k")` becomes a
  plain `Option` match.
* Remote HTTP responses are parameters: each operation takes the provider's
  response as an argument instead of performing I/O.
* Amounts (`Decimal`/`Numeric(10,2)`) are embedded as `Rat`.
-/

/-- One entry of the callback's `CallbackMetadata.Item` list: a JSON object
with optional `Name` and `Value` keys (`item.get("Name")`,
`"Value" in item`, `item["Value"]` in the source). Receipt values are
strings; other item values are irrelevant to the control flow modelled
here. -/
structure MetaItem where
  name : Option String
  value : Option String
deriving DecidableEq

/-- The `Body.stkCallback` object of a provider callback payload.
`callbackMetadata = none` covers an absent `CallbackMetadata` key, a `null`
value, and a falsy (empty) object — all of which make the source's
`if callback_metadata:` guard skip the receipt scan, which is also exactly
what `some []` does, so the flattening loses no behaviour.
`some items` is an object whose `"Item"` key holds `items`
(`callback_metadata.get("Item", [])` defaults a missing key to `[]`,
i.e. to `some []` here). -/
structure StkCallback where
  checkoutRequestID : Option String
  resultCode : Option Int
  callbackMetadata : Option (List MetaItem)
deriving DecidableEq

/-- The `Body` object of a callback payload; `stkCallback = none` means the
key is absent. -/
structure CallbackBody where
  stkCallback : Option StkCallback
deriving DecidableEq

/-- A whole callback payload as delivered to `POST /ipn/daraja/lnmo/callback`;
`body = none` means the `Body` key is absent. -/
structure CallbackData where
  body : Option CallbackBody
deriving DecidableEq

/-- The provider's immediate JSON response to the STK-push request. Only
`CheckoutRequestID` (read via `response_data.get("CheckoutRequestID")`)
steers the code; the rest of the body is opaque audit data. -/
structure ProviderResp where
  checkoutRequestID : Option String
deriving DecidableEq

/-- The raw JSON body returned by the provider's stkpushquery endpoint;
fully opaque to the code, which returns it verbatim. -/
structure QueryResp where
  raw : String
deriving DecidableEq

/-- Contents of the `_feedback` JSON column: `transact` stores the
provider's immediate response, `callback` overwrites it with the full
callback payload. -/
inductive Feedback where
  | fromProvider (r : ProviderResp)
  | fromCallback (d : CallbackData)
deriving DecidableEq

/-- A row of the `transactions` table (class `Transaction` in the source),
restricted to the columns the code assigns; timestamps and the surrogate
`id` are omitted (never read by any logic). -/
structure Transaction where
  pid : String
  party_a : String
  party_b : String
  account_reference : String
  transaction_category : Nat
  transaction_type : Nat
  transaction_channel : Nat
  transaction_aggregator : Nat
  transaction_id : Option String
  transaction_amount : Rat
  transaction_code : Option String
  transaction_details : String
  feedback : Feedback
  status : Nat
deriving DecidableEq

namespace Transaction

/-- Status constant `Transaction.PENDING = 0`. -/
def PENDING : Nat := 0
/-- Status constant `Transaction.PROCESSING = 1`. -/
def PROCESSING : Nat := 1
/-- Status constant `Transaction.PROCESSED = 2`. -/
def PROCESSED : Nat := 2
/-- Status constant `Transaction.REJECTED = 3`. -/
def REJECTED : Nat := 3
/-- Status constant `Transaction.ACCEPTED = 4`. -/
def ACCEPTED : Nat := 4
/-- Category constant `Transaction.PURCHASE_ORDER = 0`. -/
def PURCHASE_ORDER : Nat := 0
/-- Type constant `Transaction.CREDIT = 1`. -/
def CREDIT : Nat := 1
/-- Channel constant `Transaction.LNMO = 1`. -/
def LNMO : Nat := 1
/-- Aggregator constant `Transaction.MPESA_KE = 0`. -/
def MPESA_KE : Nat := 0

end Transaction

/-- A Python exception relevant to the modelled control flow: `KeyError`
carrying the missing key. -/
inductive PyErr where
  | keyError (key : String)
deriving DecidableEq

/-- The `str(e)` rendering used by the HTTP layer when embedding an
exception into the error envelope (Python renders `KeyError` as the quoted
key; we keep just the key). -/
def PyErr.message : PyErr → String
  | .keyError k => k

/-- `d[key]` on an optional-field embedding: return the value or raise
`KeyError(key)`. -/
def getKey (o : Option α) (key : String) : Except PyErr α :=
  match o with
  | some v => Except.ok v
  | none => Except.error (PyErr.keyError key)

/-- Mutate the first element satisfying `p` in place, leaving the rest of
the list unchanged — the effect of mutating the single ORM object returned
by `scalar_one_or_none` and committing. -/
def updateFirst (p : Transaction → Bool) (f : Transaction → Transaction) :
    List Transaction → List Transaction
  | [] => []
  | t :: ts => if p t then f t :: ts else t :: updateFirst p f ts

/-- The receipt scan of `LNMORepository.callback`: the first metadata item
whose `Name` equals `"MpesaReceiptNumber"` and which has a `Value` key
(the loop assigns and `break`s at the first such item); `none` when the
metadata is absent/falsy or no item qualifies. -/
def findReceipt : Option (List MetaItem) → Option String
  | none => none
  | some items =>
    match items.find? (fun item =>
        item.name == some "MpesaReceiptNumber" && item.value.isSome) with
    | some item => item.value
    | none => none

/-- The mutation `LNMORepository.callback` applies to the found row:
overwrite `_feedback` with the payload, then set `_status` from the result
code — `ACCEPTED` plus an optional receipt-code assignment for
`result_code == 0`, `REJECTED` otherwise. -/
def applyStk (data : CallbackData) (rc : Int) (md : Option (List MetaItem))
    (t : Transaction) : Transaction :=
  if rc = 0 then
    { t with feedback := Feedback.fromCallback data,
             status := Transaction.ACCEPTED,
             transaction_code :=
               match findReceipt md with
               | some v => some v
               | none => t.transaction_code }
  else
    { t with feedback := Feedback.fromCallback data,
             status := Transaction.REJECTED }

namespace LNMORepository

/-- `LNMORepository.callback(data, db)`: extract
`data["Body"]["stkCallback"]["CheckoutRequestID"]` (each step may raise
`KeyError`), look the row up by `transaction_id`; if absent, leave the
store alone and echo the payload; if present, read `ResultCode` (may also
raise) and apply `applyStk`, committing the mutation. A `KeyError` raised
after the row was mutated but before `db.commit()` is not persisted (the
session is closed without commit), so reading `ResultCode` before building
the updated row is faithful to the persisted effect. -/
def callback (data : CallbackData) (db : List Transaction) :
    Except PyErr (List Transaction × CallbackData) := do
  let body ← getKey data.body "Body"
  let stk ← getKey body.stkCallback "stkCallback"
  let cid ← getKey stk.checkoutRequestID "CheckoutRequestID"
  match db.find? (fun t => t.transaction_id == some cid) with
  | none => return (db, data)
  | some _ =>
    let rc ← getKey stk.resultCode "ResultCode"
    return (updateFirst (fun t => t.transaction_id == some cid)
        (applyStk data rc stk.callbackMetadata) db, data)

end LNMORepository

/-- Run a callback for its store effect only, keeping the store unchanged
when the repository raises (no commit happens before the raise). Used to
state multi-callback executions. -/
def runCb (data : CallbackData) (db : List Transaction) : List Transaction :=
  match LNMORepository.callback data db with
  | Except.ok (db', _) => db'
  | Except.error _ => db

/-- The environment configuration the repository reads (short code is the
only value any modelled branch consumes as data). -/
structure MpesaConfig where
  shortCode : String
deriving DecidableEq

/-- The dict the `transact` router handler builds from the validated
request body and passes to `LNMORepository.transact`. -/
structure TransactData where
  Amount : Rat
  PhoneNumber : String
  AccountReference : String
deriving DecidableEq

namespace LNMORepository

/-- `LNMORepository.transact(data, db)` after the outbound push call
returned `response_data`: construct a new `Transaction` row exactly as the
source does, `db.add` + `commit` it (append to the store), and return the
raw provider response. The network half (token fetch, password, POST) is
factored out by taking `response_data` as a parameter. -/
def transact (cfg : MpesaConfig) (data : TransactData)
    (response_data : ProviderResp) (db : List Transaction) :
    List Transaction × ProviderResp :=
  (db ++ [{ pid := data.AccountReference,
            party_a := data.PhoneNumber,
            party_b := cfg.shortCode,
            account_reference := data.AccountReference,
            transaction_category := Transaction.PURCHASE_ORDER,
            transaction_type := Transaction.CREDIT,
            transaction_channel := Transaction.LNMO,
            transaction_aggregator := Transaction.MPESA_KE,
            transaction_id := response_data.checkoutRequestID,
            transaction_amount := data.Amount,
            transaction_code := none,
            transaction_details := "Payment for order " ++ data.AccountReference,
            feedback := Feedback.fromProvider response_data,
            status := Transaction.PROCESSING }],
   response_data)

/-- `LNMORepository.query(transaction_id)`: build the query payload, POST
it, and return `response.json()` verbatim. The source function takes no
database session at all; we embed it with the provider's response as a
parameter, returned unchanged. -/
def query (transaction_id : String) (providerResponse : QueryResp) : QueryResp :=
  providerResponse

end LNMORepository

/-- The store-level view of a `query` call: the handler runs
`lnmo_repository.query` — which receives no session — so the store passes
through untouched alongside the raw provider response. -/
def queryOp (db : List Transaction) (transaction_id : String)
    (providerResponse : QueryResp) : List Transaction × QueryResp :=
  (db, LNMORepository.query transaction_id providerResponse)

/-- The provider's response to the OAuth token request:
`status_code`, whether the body parses as JSON (`response.json()` raises
otherwise), and the optional `access_token` / `error_description` keys of
the parsed body. -/
structure TokenResp where
  status_code : Nat
  jsonOk : Bool
  access_token : Option String
  error_description : Option String
deriving DecidableEq

/-- The body of `generate_access_token`'s `try` block: parse the JSON
body (raising on malformed), return `response_data["access_token"]` on
HTTP 200 (raising `KeyError` if absent), otherwise raise
`Exception("Failed to generate access token: " + error_description or
"Unknown error")`. `Except.error` carries the exception's message. -/
def generate_access_token_inner (r : TokenResp) : Except String String :=
  if r.jsonOk = false then
    Except.error "invalid json body"
  else if r.status_code = 200 then
    match r.access_token with
    | some tok => Except.ok tok
    | none => Except.error "access_token"
  else
    Except.error ("Failed to generate access token: "
      ++ r.error_description.getD "Unknown error")

/-- `LNMORepository.generate_access_token()`: the `try` block above wrapped
in `except Exception: print(...); return None` — every failure is caught
and the caller receives `None`. -/
def generate_access_token (r : TokenResp) : Option String :=
  (generate_access_token_inner r).toOption

/-- The pydantic request schema `TransactionRequest` for
`POST /ipn/daraja/lnmo/transact`. -/
structure TransactionRequest where
  Amount : Rat
  PhoneNumber : String
  AccountReference : String
deriving DecidableEq

/-- Pydantic field validation of `TransactionRequest`:
`Amount: gt=0`, `PhoneNumber: min_length=10, max_length=15`,
`AccountReference: min_length=1, max_length=100`. FastAPI runs this before
the handler; a failure becomes a 422 response and the handler body — and
hence any outbound call or store write — never runs. -/
def validTransactionRequest (r : TransactionRequest) : Bool :=
  decide (0 < r.Amount)
    && decide (10 ≤ r.PhoneNumber.length) && decide (r.PhoneNumber.length ≤ 15)
    && decide (1 ≤ r.AccountReference.length)
    && decide (r.AccountReference.length ≤ 100)

/-- Outcome of a `POST /ipn/daraja/lnmo/transact` request, paired with the
number of outbound provider push calls made while handling it. -/
inductive TransactOutcome where
  | validationError
  | ok (respStatus respMessage : String) (data : ProviderResp)
deriving DecidableEq

/-- The `transact` route: validate the body against `TransactionRequest`;
on failure reply 422 having made no provider call and no store write; on
success build the data dict, run `LNMORepository.transact` (one outbound
push call) and wrap its return in the
`APIResponse(status="info", message="Transaction processing")` envelope. -/
def routerTransact (cfg : MpesaConfig) (req : TransactionRequest)
    (response_data : ProviderResp) (db : List Transaction) :
    List Transaction × Nat × TransactOutcome :=
  if validTransactionRequest req then
    let r := LNMORepository.transact cfg
      { Amount := req.Amount, PhoneNumber := req.PhoneNumber,
        AccountReference := req.AccountReference } response_data db
    (r.1, 1, TransactOutcome.ok "info" "Transaction processing" r.2)
  else
    (db, 0, TransactOutcome.validationError)

/-- HTTP reply of the `callback` route: either the HTTP-200 `APIResponse`
envelope echoing the payload, or the `HTTPException`'s 400 detail envelope
`status="danger"`, `message=str(e)`, empty data. -/
inductive CallbackReply where
  | ok200 (respStatus respMessage : String) (data : CallbackData)
  | err400 (respStatus respMessage : String)
deriving DecidableEq

/-- The `callback` route: run `LNMORepository.callback`; wrap a normal
return in the `status="info"` / `message="Callback processing"` envelope
(HTTP 200); turn a raised exception into an `HTTPException` with status
400 and the danger envelope. An exception aborts before `db.commit()`, so
the store is the one from before the call. -/
def routerCallback (data : CallbackData) (db : List Transaction) :
    List Transaction × CallbackReply :=
  match LNMORepository.callback data db with
  | Except.ok (db', echoed) =>
    (db', CallbackReply.ok200 "info" "Callback processing" echoed)
  | Except.error e => (db, CallbackReply.err400 "danger" e.message)

/-! ### Helper lemmas -/

theorem find?_updateFirst {p : Transaction → Bool} {f : Transaction → Transaction}
    {l : List Transaction} {t : Transaction}
    (h : l.find? p = some t) (hf : p (f t) = true) :
    (updateFirst p f l).find? p = some (f t) := by
  induction l with
  | nil => simp at h
  | cons a as ih =>
    by_cases hpa : p a = true
    · rw [List.find?_cons_of_pos _ hpa] at h
      obtain rfl : a = t := by injection h
      rw [updateFirst, if_pos hpa]
      exact List.find?_cons_of_pos _ hf
    · rw [List.find?_cons_of_neg _ hpa] at h
      rw [updateFirst, if_neg hpa, List.find?_cons_of_neg _ hpa]
      exact ih h

theorem applyStk_transaction_id (data : CallbackData) (rc : Int)
    (md : Option (List MetaItem)) (t : Transaction) :
    (applyStk data rc md t).transaction_id = t.transaction_id := by
  unfold applyStk
  by_cases h : rc = 0 <;> simp [h]

theorem applyStk_status (data : CallbackData) (rc : Int)
    (md : Option (List MetaItem)) (t : Transaction) :
    (applyStk data rc md t).status
      = if rc = 0 then Transaction.ACCEPTED else Transaction.REJECTED := by
  unfold applyStk
  by_cases h : rc = 0 <;> simp [h]

theorem applyStk_code_of_success (data : CallbackData)
    (md : Option (List MetaItem)) (t : Transaction) :
    (applyStk data 0 md t).transaction_code
      = match findReceipt md with
        | some v => some v
        | none => t.transaction_code := by
  unfold applyStk
  simp

theorem applyStk_code_of_failure (data : CallbackData) (rc : Int)
    (md : Option (List MetaItem)) (t : Transaction) (h : rc ≠ 0) :
    (applyStk data rc md t).transaction_code = t.transaction_code := by
  unfold applyStk
  simp [h]

theorem callback_eq_of_found (data : CallbackData) (b : CallbackBody)
    (stk : StkCallback) (cid : String) (rc : Int)
    (db : List Transaction) (t : Transaction)
    (hb : data.body = some b) (hs : b.stkCallback = some stk)
    (hc : stk.checkoutRequestID = some cid) (hr : stk.resultCode = some rc)
    (hfind : db.find? (fun u => u.transaction_id == some cid) = some t) :
    LNMORepository.callback data db
      = Except.ok (updateFirst (fun u => u.transaction_id == some cid)
          (applyStk data rc stk.callbackMetadata) db, data) := by
  simp [LNMORepository.callback, getKey, hb, hs, hc, hr, hfind,
    Bind.bind, Except.bind, Functor.map, Except.map, pure, Except.pure]

theorem callback_eq_of_not_found (data : CallbackData) (b : CallbackBody)
    (stk : StkCallback) (cid : String) (db : List Transaction)
    (hb : data.body = some b) (hs : b.stkCallback = some stk)
    (hc : stk.checkoutRequestID = some cid)
    (hfind : db.find? (fun u => u.transaction_id == some cid) = none) :
    LNMORepository.callback data db = Except.ok (db, data) := by
  simp [LNMORepository.callback, getKey, hb, hs, hc, hfind,
    Bind.bind, Except.bind, Functor.map, Except.map, pure, Except.pure]

/-! ### Concrete example data (mirroring the worked examples in the spec) -/

/-- Provider response carrying the checkout id of the spec's worked
example. -/
def respWs : ProviderResp := { checkoutRequestID := some "ws_CO_1" }

/-- A freshly initiated row: PROCESSING, receipt code unset, correlated to
checkout id ws_CO_1 — the row `transact` persists for the spec's example
request. -/
def txProcessing : Transaction :=
  { pid := "ORDER-1", party_a := "254712345678", party_b := "174379",
    account_reference := "ORDER-1", transaction_category := Transaction.PURCHASE_ORDER,
    transaction_type := Transaction.CREDIT, transaction_channel := Transaction.LNMO,
    transaction_aggregator := Transaction.MPESA_KE,
    transaction_id := some "ws_CO_1", transaction_amount := 100,
    transaction_code := none, transaction_details := "Payment for order ORDER-1",
    feedback := Feedback.fromProvider respWs, status := Transaction.PROCESSING }

/-- The stkCallback of a successful result for ws_CO_1, metadata carrying
receipt NLJ7RT61SV (the spec's example callback). -/
def stkAccept : StkCallback :=
  { checkoutRequestID := some "ws_CO_1", resultCode := some 0,
    callbackMetadata := some [{ name := some "MpesaReceiptNumber",
                                value := some "NLJ7RT61SV" }] }

/-- The spec's example success callback payload. -/
def cbAccept : CallbackData := { body := some { stkCallback := some stkAccept } }

/-- The stkCallback of a failed result (result code 1) for ws_CO_1, no
metadata. -/
def stkReject : StkCallback :=
  { checkoutRequestID := some "ws_CO_1", resultCode := some 1,
    callbackMetadata := none }

/-- A failure callback payload for ws_CO_1. -/
def cbReject : CallbackData := { body := some { stkCallback := some stkReject } }

/-- The ws_CO_1 row after it reached the terminal ACCEPTED state with
receipt code NLJ7RT61SV. -/
def txAccepted : Transaction :=
  { txProcessing with
    status := Transaction.ACCEPTED
    transaction_code := some "NLJ7RT61SV"
    feedback := Feedback.fromCallback cbAccept }

/-! ### Claim theorems -/

/-- C1 (counterexample): terminal states are not sticky. The ws_CO_1 row
sits in the terminal ACCEPTED state; applying a replayed callback with
result code 1 moves it to REJECTED — a transition out of a terminal state,
refuting the claimed monotonicity. -/
theorem c1_counterexample :
    txAccepted.status = Transaction.ACCEPTED ∧
    (runCb cbReject [txAccepted]).map Transaction.status = [Transaction.REJECTED] ∧
    Transaction.REJECTED ≠ Transaction.ACCEPTED :=
  ⟨rfl, rfl, by decide⟩

/-- C1 (amended): a callback whose checkout id matches a stored transaction
always recomputes that transaction's status from the payload's result code
— ACCEPTED if the code is 0 and REJECTED otherwise — regardless of the
prior status; the code does not protect terminal states, so a replayed
callback can move a transaction out of ACCEPTED or REJECTED. -/
theorem c1_callback_recomputes_status
    (data : CallbackData) (b : CallbackBody) (stk : StkCallback) (cid : String)
    (rc : Int) (db : List Transaction) (t : Transaction)
    (hb : data.body = some b) (hs : b.stkCallback = some stk)
    (hc : stk.checkoutRequestID = some cid) (hr : stk.resultCode = some rc)
    (hfind : db.find? (fun u => u.transaction_id == some cid) = some t) :
    LNMORepository.callback data db
      = Except.ok (updateFirst (fun u => u.transaction_id == some cid)
          (applyStk data rc stk.callbackMetadata) db, data) ∧
    (updateFirst (fun u => u.transaction_id == some cid)
        (applyStk data rc stk.callbackMetadata) db).find?
        (fun u => u.transaction_id == some cid)
      = some (applyStk data rc stk.callbackMetadata t) ∧
    (applyStk data rc stk.callbackMetadata t).status
      = if rc = 0 then Transaction.ACCEPTED else Transaction.REJECTED := by
  have hp := List.find?_some hfind
  have hf : ((applyStk data rc stk.callbackMetadata t).transaction_id
      == some cid) = true := by
    rw [applyStk_transaction_id]; exact hp
  exact ⟨callback_eq_of_found data b stk cid rc db t hb hs hc hr hfind,
    find?_updateFirst hfind hf, applyStk_status data rc stk.callbackMetadata t⟩

/-- C1 (witness): the amended statement at the concrete replay input — the
ACCEPTED ws_CO_1 row and a result-code-1 callback. -/
theorem c1_witness :
    LNMORepository.callback cbReject [txAccepted]
      = Except.ok (updateFirst (fun u => u.transaction_id == some "ws_CO_1")
          (applyStk cbReject 1 stkReject.callbackMetadata) [txAccepted], cbReject) ∧
    (updateFirst (fun u => u.transaction_id == some "ws_CO_1")
        (applyStk cbReject 1 stkReject.callbackMetadata) [txAccepted]).find?
        (fun u => u.transaction_id == some "ws_CO_1")
      = some (applyStk cbReject 1 stkReject.callbackMetadata txAccepted) ∧
    (applyStk cbReject 1 stkReject.callbackMetadata txAccepted).status
      = if (1 : Int) = 0 then Transaction.ACCEPTED else Transaction.REJECTED :=
  c1_callback_recomputes_status cbReject { stkCallback := some stkReject }
    stkReject "ws_CO_1" 1 [txAccepted] txAccepted rfl rfl rfl rfl rfl

/-- C2: a callback with result code 0 whose checkout id matches a stored
transaction sets that transaction's status to ACCEPTED; its receipt code
becomes the value of the first metadata item named MpesaReceiptNumber that
carries a value, and is left untouched (in particular unset if it was
unset) when no such item exists. -/
theorem c2_callback_success_accepts
    (data : CallbackData) (b : CallbackBody) (stk : StkCallback) (cid : String)
    (db : List Transaction) (t : Transaction)
    (hb : data.body = some b) (hs : b.stkCallback = some stk)
    (hc : stk.checkoutRequestID = some cid) (hr : stk.resultCode = some 0)
    (hfind : db.find? (fun u => u.transaction_id == some cid) = some t) :
    LNMORepository.callback data db
      = Except.ok (updateFirst (fun u => u.transaction_id == some cid)
          (applyStk data 0 stk.callbackMetadata) db, data) ∧
    (updateFirst (fun u => u.transaction_id == some cid)
        (applyStk data 0 stk.callbackMetadata) db).find?
        (fun u => u.transaction_id == some cid)
      = some (applyStk data 0 stk.callbackMetadata t) ∧
    (applyStk data 0 stk.callbackMetadata t).status = Transaction.ACCEPTED ∧
    (applyStk data 0 stk.callbackMetadata t).transaction_code
      = (match findReceipt stk.callbackMetadata with
         | some v => some v
         | none => t.transaction_code) := by
  have hp := List.find?_some hfind
  have hf : ((applyStk data 0 stk.callbackMetadata t).transaction_id
      == some cid) = true := by
    rw [applyStk_transaction_id]; exact hp
  refine ⟨callback_eq_of_found data b stk cid 0 db t hb hs hc hr hfind,
    find?_updateFirst hfind hf, ?_, applyStk_code_of_success data stk.callbackMetadata t⟩
  simpa using applyStk_status data 0 stk.callbackMetadata t

/-- C2 (witness): the spec's worked example — success callback for ws_CO_1
with receipt NLJ7RT61SV applied to the PROCESSING row. -/
theorem c2_witness :
    LNMORepository.callback cbAccept [txProcessing]
      = Except.ok (updateFirst (fun u => u.transaction_id == some "ws_CO_1")
          (applyStk cbAccept 0 stkAccept.callbackMetadata) [txProcessing], cbAccept) ∧
    (updateFirst (fun u => u.transaction_id == some "ws_CO_1")
        (applyStk cbAccept 0 stkAccept.callbackMetadata) [txProcessing]).find?
        (fun u => u.transaction_id == some "ws_CO_1")
      = some (applyStk cbAccept 0 stkAccept.callbackMetadata txProcessing) ∧
    (applyStk cbAccept 0 stkAccept.callbackMetadata txProcessing).status
      = Transaction.ACCEPTED ∧
    (applyStk cbAccept 0 stkAccept.callbackMetadata txProcessing).transaction_code
      = (match findReceipt stkAccept.callbackMetadata with
         | some v => some v
         | none => txProcessing.transaction_code) :=
  c2_callback_success_accepts cbAccept { stkCallback := some stkAccept }
    stkAccept "ws_CO_1" [txProcessing] txProcessing rfl rfl rfl rfl rfl

/-- C3: a callback with non-zero result code whose checkout id matches a
stored transaction sets that transaction's status to REJECTED and leaves
the receipt code exactly as it was — in particular unset if it was unset —
whatever the metadata contains. -/
theorem c3_callback_failure_rejects
    (data : CallbackData) (b : CallbackBody) (stk : StkCallback) (cid : String)
    (rc : Int) (db : List Transaction) (t : Transaction)
    (hb : data.body = some b) (hs : b.stkCallback = some stk)
    (hc : stk.checkoutRequestID = some cid) (hr : stk.resultCode = some rc)
    (hrc : rc ≠ 0)
    (hfind : db.find? (fun u => u.transaction_id == some cid) = some t) :
    LNMORepository.callback data db
      = Except.ok (updateFirst (fun u => u.transaction_id == some cid)
          (applyStk data rc stk.callbackMetadata) db, data) ∧
    (updateFirst (fun u => u.transaction_id == some cid)
        (applyStk data rc stk.callbackMetadata) db).find?
        (fun u => u.transaction_id == some cid)
      = some (applyStk data rc stk.callbackMetadata t) ∧
    (applyStk data rc stk.callbackMetadata t).status = Transaction.REJECTED ∧
    (applyStk data rc stk.callbackMetadata t).transaction_code
      = t.transaction_code := by
  have hp := List.find?_some hfind
  have hf : ((applyStk data rc stk.callbackMetadata t).transaction_id
      == some cid) = true := by
    rw [applyStk_transaction_id]; exact hp
  refine ⟨callback_eq_of_found data b stk cid rc db t hb hs hc hr hfind,
    find?_updateFirst hfind hf, ?_,
    applyStk_code_of_failure data rc stk.callbackMetadata t hrc⟩
  rw [applyStk_status, if_neg hrc]

/-- C3 (witness): the failure callback for ws_CO_1 applied to the
PROCESSING row, whose receipt code is unset and stays unset. -/
theorem c3_witness :
    LNMORepository.callback cbReject [txProcessing]
      = Except.ok (updateFirst (fun u => u.transaction_id == some "ws_CO_1")
          (applyStk cbReject 1 stkReject.callbackMetadata) [txProcessing], cbReject) ∧
    (updateFirst (fun u => u.transaction_id == some "ws_CO_1")
        (applyStk cbReject 1 stkReject.callbackMetadata) [txProcessing]).find?
        (fun u => u.transaction_id == some "ws_CO_1")
      = some (applyStk cbReject 1 stkReject.callbackMetadata txProcessing) ∧
    (applyStk cbReject 1 stkReject.callbackMetadata txProcessing).status
      = Transaction.REJECTED ∧
    (applyStk cbReject 1 stkReject.callbackMetadata txProcessing).transaction_code
      = txProcessing.transaction_code :=
  c3_callback_failure_rejects cbReject { stkCallback := some stkReject }
    stkReject "ws_CO_1" 1 [txProcessing] txProcessing rfl rfl rfl rfl
    (by decide) rfl

/-- C4: a well-formed callback payload whose checkout id matches no stored
transaction leaves the store unchanged and the route replies with the
HTTP-200 success envelope (status info, message Callback processing)
echoing the payload — no error is surfaced. -/
theorem c4_callback_unknown_id_echoes
    (data : CallbackData) (b : CallbackBody) (stk : StkCallback) (cid : String)
    (db : List Transaction)
    (hb : data.body = some b) (hs : b.stkCallback = some stk)
    (hc : stk.checkoutRequestID = some cid)
    (hfind : db.find? (fun u => u.transaction_id == some cid) = none) :
    routerCallback data db
      = (db, CallbackReply.ok200 "info" "Callback processing" data) := by
  unfold routerCallback
  rw [callback_eq_of_not_found data b stk cid db hb hs hc hfind]

/-- C4 (witness): the success callback for ws_CO_1 delivered against an
empty store. -/
theorem c4_witness :
    routerCallback cbAccept []
      = ([], CallbackReply.ok200 "info" "Callback processing" cbAccept) :=
  c4_callback_unknown_id_echoes cbAccept { stkCallback := some stkAccept }
    stkAccept "ws_CO_1" [] rfl rfl rfl rfl

/-- C5 (counterexample): the receipt-code/ACCEPTED biconditional is not
preserved by callback sequences. Starting from the PROCESSING ws_CO_1 row
with no receipt code, a success callback carrying receipt NLJ7RT61SV
followed by a replayed failure callback leaves the row REJECTED — not
ACCEPTED — with its receipt code still set. -/
theorem c5_counterexample :
    txProcessing.transaction_code = none ∧
    (runCb cbReject (runCb cbAccept [txProcessing])).map
        (fun t => (t.status, t.transaction_code))
      = [(Transaction.REJECTED, some "NLJ7RT61SV")] ∧
    Transaction.REJECTED ≠ Transaction.ACCEPTED :=
  ⟨rfl, rfl, by decide⟩

/-- C5 (amended): the biconditional holds for a single callback applied to
a matching transaction whose receipt code is unset: afterwards the receipt
code is set iff the status became ACCEPTED and the callback's metadata
carried a receipt value. (Across sequences it can break: a receipt set by
an earlier accepting callback survives a later rejecting replay, leaving a
REJECTED row with a receipt code.) -/
theorem c5_single_callback_receipt_iff
    (data : CallbackData) (b : CallbackBody) (stk : StkCallback) (cid : String)
    (rc : Int) (db : List Transaction) (t : Transaction)
    (hb : data.body = some b) (hs : b.stkCallback = some stk)
    (hc : stk.checkoutRequestID = some cid) (hr : stk.resultCode = some rc)
    (hfind : db.find? (fun u => u.transaction_id == some cid) = some t)
    (hcode : t.transaction_code = none) :
    LNMORepository.callback data db
      = Except.ok (updateFirst (fun u => u.transaction_id == some cid)
          (applyStk data rc stk.callbackMetadata) db, data) ∧
    ((applyStk data rc stk.callbackMetadata t).transaction_code ≠ none ↔
      ((applyStk data rc stk.callbackMetadata t).status = Transaction.ACCEPTED ∧
        findReceipt stk.callbackMetadata ≠ none)) := by
  refine ⟨callback_eq_of_found data b stk cid rc db t hb hs hc hr hfind, ?_⟩
  by_cases h : rc = 0
  · subst h
    rw [applyStk_code_of_success, applyStk_status, hcode]
    cases hmd : findReceipt stk.callbackMetadata <;> simp [hmd]
  · rw [applyStk_code_of_failure data rc stk.callbackMetadata t h,
      applyStk_status, if_neg h, hcode]
    simp [Transaction.REJECTED, Transaction.ACCEPTED]

/-- C5 (witness): the amended statement at the spec's worked example — the
success callback with receipt NLJ7RT61SV applied to the PROCESSING row. -/
theorem c5_witness :
    LNMORepository.callback cbAccept [txProcessing]
      = Except.ok (updateFirst (fun u => u.transaction_id == some "ws_CO_1")
          (applyStk cbAccept 0 stkAccept.callbackMetadata) [txProcessing], cbAccept) ∧
    ((applyStk cbAccept 0 stkAccept.callbackMetadata txProcessing).transaction_code
        ≠ none ↔
      ((applyStk cbAccept 0 stkAccept.callbackMetadata txProcessing).status
          = Transaction.ACCEPTED ∧
        findReceipt stkAccept.callbackMetadata ≠ none)) :=
  c5_single_callback_receipt_iff cbAccept { stkCallback := some stkAccept }
    stkAccept "ws_CO_1" 0 [txProcessing] txProcessing rfl rfl rfl rfl rfl rfl

/-- The spec's example initiate request data (amount 100, the example
phone and account reference). -/
def reqData : TransactData :=
  { Amount := 100, PhoneNumber := "254712345678", AccountReference := "ORDER-1" }

/-- A short-code configuration for concrete runs. -/
def cfg174379 : MpesaConfig := { shortCode := "174379" }

/-- C6: after a valid initiate with amount > 0 completes, the store holds a
new row whose status is PROCESSING, whose process id equals the submitted
account reference, and whose checkout id is whatever (possibly absent)
CheckoutRequestID the provider's immediate response carried; the raw
response is returned unchanged. -/
theorem c6_transact_creates_processing_row
    (cfg : MpesaConfig) (data : TransactData) (response_data : ProviderResp)
    (db : List Transaction) (h : 0 < data.Amount) :
    ∃ t, (LNMORepository.transact cfg data response_data db).1 = db ++ [t] ∧
      t.status = Transaction.PROCESSING ∧
      t.pid = data.AccountReference ∧
      t.transaction_id = response_data.checkoutRequestID ∧
      (LNMORepository.transact cfg data response_data db).2 = response_data :=
  ⟨_, rfl, rfl, rfl, rfl, rfl⟩

/-- C6 (witness): the spec's example request against an empty store, with
the provider returning checkout id ws_CO_1. -/
theorem c6_witness :
    0 < reqData.Amount ∧
    ∃ t, (LNMORepository.transact cfg174379 reqData respWs []).1 = [] ++ [t] ∧
      t.status = Transaction.PROCESSING ∧
      t.pid = reqData.AccountReference ∧
      t.transaction_id = respWs.checkoutRequestID ∧
      (LNMORepository.transact cfg174379 reqData respWs []).2 = respWs :=
  ⟨by decide,
   c6_transact_creates_processing_row cfg174379 reqData respWs [] (by decide)⟩

/-- C7: a request whose amount is not positive fails pydantic validation,
so the handler body never runs: no outbound provider call is made and no
row is created. -/
theorem c7_nonpositive_amount_rejected
    (cfg : MpesaConfig) (req : TransactionRequest) (response_data : ProviderResp)
    (db : List Transaction) (h : req.Amount ≤ 0) :
    routerTransact cfg req response_data db
      = (db, 0, TransactOutcome.validationError) := by
  have hv : validTransactionRequest req = false := by
    unfold validTransactionRequest
    rw [decide_eq_false (not_lt.mpr h)]
    simp
  unfold routerTransact
  rw [hv]
  simp

/-- A request body with amount 0, failing the gt-0 field constraint. -/
def reqZero : TransactionRequest :=
  { Amount := 0, PhoneNumber := "254712345678", AccountReference := "ORDER-1" }

/-- C7 (witness): the amount-0 request against an empty store. -/
theorem c7_witness :
    reqZero.Amount ≤ 0 ∧
    routerTransact cfg174379 reqZero respWs []
      = ([], 0, TransactOutcome.validationError) :=
  ⟨by decide,
   c7_nonpositive_amount_rejected cfg174379 reqZero respWs [] (by decide)⟩

/-- C8: a status query is read-through to the provider only — the source
function receives no database session — so the store passes through any
query unchanged and the provider's raw response is returned verbatim. -/
theorem c8_query_store_unchanged (db : List Transaction)
    (transaction_id : String) (providerResponse : QueryResp) :
    queryOp db transaction_id providerResponse = (db, providerResponse) :=
  rfl

/-- A non-200 token response with a well-formed JSON error body. -/
def tokenResp400 : TokenResp :=
  { status_code := 400, jsonOk := true, access_token := none,
    error_description := some "Bad Request - Invalid Credentials" }

/-- C9 (counterexample): on a non-200 token response the caller does not
observe an error. The inner logic raises with the provider's description,
but the except-block swallows it and the operation returns None — a
non-error sentinel — to its caller. -/
theorem c9_counterexample :
    tokenResp400.status_code ≠ 200 ∧
    generate_access_token tokenResp400 = none ∧
    generate_access_token_inner tokenResp400
      = Except.error
          "Failed to generate access token: Bad Request - Invalid Credentials" :=
  ⟨by decide, rfl, rfl⟩

/-- C9 (amended): on any non-200 response or malformed body the internal
logic raises an exception carrying the provider's error description when
present, but the operation catches every exception and returns None, so
its caller observes None rather than an AuthError. -/
theorem c9_token_failure_swallowed
    (r : TokenResp) (h : r.jsonOk = false ∨ r.status_code ≠ 200) :
    generate_access_token r = none ∧
    (r.jsonOk = true → r.status_code ≠ 200 →
      generate_access_token_inner r
        = Except.error ("Failed to generate access token: "
            ++ r.error_description.getD "Unknown error")) := by
  constructor
  · unfold generate_access_token generate_access_token_inner
    rcases h with h | h
    · simp [h, Except.toOption]
    · by_cases hj : r.jsonOk = false
      · simp [hj, Except.toOption]
      · simp [hj, h, Except.toOption]
  · intro hj hs
    unfold generate_access_token_inner
    simp [hj, hs]

/-- C9 (witness): the amended statement at the concrete 400 response. -/
theorem c9_witness :
    (tokenResp400.jsonOk = false ∨ tokenResp400.status_code ≠ 200) ∧
    (generate_access_token tokenResp400 = none ∧
     (tokenResp400.jsonOk = true → tokenResp400.status_code ≠ 200 →
       generate_access_token_inner tokenResp400
         = Except.error ("Failed to generate access token: "
             ++ tokenResp400.error_description.getD "Unknown error"))) :=
  ⟨by decide, c9_token_failure_swallowed tokenResp400 (by decide)⟩

/-- C10: when the nested path Body.stkCallback.CheckoutRequestID is absent,
the repository raises KeyError before any store lookup or write — the
store is returned unchanged for every store value — and the route turns
the exception into the 400 danger envelope naming the missing key, instead
of the HTTP-200 echo. -/
theorem c10_malformed_callback_400
    (data : CallbackData) (db : List Transaction)
    (h : (data.body.bind CallbackBody.stkCallback).bind
        StkCallback.checkoutRequestID = none) :
    routerCallback data db
      = (db, CallbackReply.err400 "danger"
          (match data.body with
           | none => "Body"
           | some b =>
             match b.stkCallback with
             | none => "stkCallback"
             | some _ => "CheckoutRequestID")) := by
  obtain ⟨_ | b⟩ := data
  · simp [routerCallback, LNMORepository.callback, getKey,
      Bind.bind, Except.bind, PyErr.message]
  · obtain ⟨_ | stk⟩ := b
    · simp [routerCallback, LNMORepository.callback, getKey,
        Bind.bind, Except.bind, PyErr.message]
    · rcases hcid : stk.checkoutRequestID with _ | cid
      · simp [routerCallback, LNMORepository.callback, getKey, hcid,
          Bind.bind, Except.bind, PyErr.message]
      · rw [Option.some_bind', Option.some_bind', hcid] at h
        exact absurd h (by simp)

/-- A callback payload with no Body key at all. -/
def cbEmpty : CallbackData := { body := none }

/-- C10 (witness): the empty payload against an empty store yields the 400
danger envelope for the missing Body key. -/
theorem c10_witness :
    ((cbEmpty.body.bind CallbackBody.stkCallback).bind
        StkCallback.checkoutRequestID = none) ∧
    routerCallback cbEmpty []
      = ([], CallbackReply.err400 "danger"
          (match cbEmpty.body with
           | none => "Body"
           | some b =>
             match b.stkCallback with
             | none => "stkCallback"
             | some _ => "CheckoutRequestID")) :=
  ⟨rfl, c10_malformed_callback_400 cbEmpty [] rfl⟩
